/-
Verification of the media-analysis CLI (src/media-analysis-cli.py).

Shallow embedding conventions:
* Python floats (TextBlob polarity/subjectivity, credibility score) are
  modelled as exact rationals (ℚ); numeric literals in the source become the
  corresponding rational literals.
* The external primitives (requests, BeautifulSoup, urllib, TextBlob) are not
  part of the repository; functions that consume their outputs take those
  outputs as explicit arguments (polarity, subjectivity, sentence count,
  parsed page, resolved anchor URLs).
* Python strings are Lean `String`s; `str.lower` / `re.IGNORECASE` are
  modelled with `Char.toLower` (the inputs of interest are ASCII).
* `raise ValueError` is modelled with `Except String`.
-/
import Mathlib

set_option maxRecDepth 4000

/-! ### Word-boundary regex matching

`detect_bias` tests `re.search(r'\b' + re.escape(word) + r'\b', text,
re.IGNORECASE)`.  `re.escape` makes every character of `word` literal, so the
pattern is: word boundary, the literal word (case-insensitively), word
boundary.  A `\b` matches between two positions whose word-character statuses
differ, the virtual characters before the start and after the end of the text
being non-word characters. -/

/-- Python's `str.lower` for ASCII text, character by character. -/
def pyLower (s : String) : String := ⟨s.data.map Char.toLower⟩

/-- Python's `\w` for ASCII text: letters, digits and underscore. -/
def isWordChar (c : Char) : Bool := c.isAlphanum || c == '_'

/-- Word-character status of an optional character; the virtual character
beyond either end of the text (`none`) is a non-word character. -/
def optWord : Option Char → Bool
  | none => false
  | some c => isWordChar c

/-- The `\b` anchor: a word boundary lies between two adjacent characters exactly when
their word-character statuses differ. -/
def wordBoundary (a b : Option Char) : Bool := optWord a != optWord b

/-- Case-insensitive literal match of `pat` against an initial segment of the
text (the effect of `re.IGNORECASE` on an escaped literal pattern). -/
def ciLead : List Char → List Char → Bool
  | [], _ => true
  | _ :: _, [] => false
  | p :: ps, t :: ts => (p.toLower == t.toLower) && ciLead ps ts

/-- Does `\b pat \b` match at the current position?  `prev` is the character
just before the position, `text` the suffix starting at the position. -/
def matchAt (pat : List Char) (prev : Option Char) (text : List Char) : Bool :=
  wordBoundary prev text.head? &&
  ciLead pat text &&
  wordBoundary (text.take pat.length).getLast? (text.drop pat.length).head?

/-- Scan every position of the text (including the final, empty suffix) for a
`\b pat \b` match; `prev` is the character before the current position. -/
def wwSearchAux (pat : List Char) : Option Char → List Char → Bool
  | prev, [] => matchAt pat prev []
  | prev, c :: cs => matchAt pat prev (c :: cs) || wwSearchAux pat (some c) cs

/-- Model of `re.search(r'\b' + re.escape(pat) + r'\b', text, re.IGNORECASE)` as a
Boolean: is there a whole-word, case-insensitive occurrence of `pat`? -/
def wwSearch (pat text : String) : Bool := wwSearchAux pat.data none text.data

/-! ### `Analyzer.detect_bias` -/

/-- The `biased_words` lexicon, transcribed verbatim from the source. -/
def biased_words : List String := [
  "alarming", "amazing", "appalling", "awful", "bad", "beautiful", "best", "blatant",
  "breakthrough", "catastrophe", "certainly", "chaotic", "clearly", "collusion",
  "conspiracy", "corrupt", "covert", "crisis", "danger", "deadly", "decent",
  "definitely", "disaster", "disgraceful", "disgusting", "drastic", "duty",
  "effective", "excellent", "exceptional", "extreme", "failure", "fair",
  "fantastic", "fear-mongering", "finally", "flawless", "foolish", "freedom",
  "frenzy", "frightening", "good", "great", "hate", "healthy", "heroic",
  "historic", "honest", "horrible", "huge", "immediately", "important",
  "impossible", "incompetent", "incredible", "inevitable", "inflammatory",
  "injustice", "inspirational", "irresponsible", "justice", "landmark", "likely",
  "looming", "massive", "masterpiece", "meaningful", "miracle", "misleading",
  "monumental", "must", "myth", "obviously", "of course", "outrageous", "panic",
  "patriotic", "perfect", "pivotal", "poor", "propaganda", "radical", "reasonable",
  "revolutionary", "rigged", "scandal", "scare", "secret", "shameful", "shocking",
  "significant", "smart", "so-called", "special", "stupid", "successful", "suddenly",
  "superb", "terrible", "terrifying", "threat", "timely", "tiny", "tragic",
  "tremendous", "true", "trust", "truth", "unacceptable", "unbelievable",
  "undoubtedly", "unfair", "unfortunate", "unprecedented", "urgent", "victory",
  "violent", "vital", "wonderful", "worst", "wrong"]

/-- The `found_words` list of `detect_bias`: the lexicon entries (in lexicon
order) for which `re.search` finds a whole-word match in the text. -/
def found_words (text : String) : List String :=
  biased_words.filter (fun w => wwSearch w text)

/-- Embeds `Analyzer.detect_bias`: assessment tier, score (`len(found_words)`), and
the matched words.  The source returns `list(set(found_words))`, whose element
set is that of `found_words` but whose order is unspecified; it is modelled as
`(found_words text).dedup` (same elements, duplicates — there are none —
removed). -/
def detect_bias (text : String) : String × Nat × List String :=
  let score := (found_words text).length
  let assessment :=
    if score > 15 then "High potential for bias"
    else if score > 7 then "Moderate potential for bias"
    else if score > 0 then "Low potential for bias"
    else "Appears to be objective"
  (assessment, score, (found_words text).dedup)

/-! ### `Analyzer.analyze_sentiment`

Polarity and subjectivity are produced by TextBlob (external); the function
below is the label mapping applied to them. -/

/-- Embeds `Analyzer.analyze_sentiment`: maps the TextBlob polarity/subjectivity pair
to `(label, polarity, subjectivity)`. -/
def analyze_sentiment (polarity subjectivity : ℚ) : String × ℚ × ℚ :=
  let sentiment_label :=
    if polarity > 1/10 then "Positive"
    else if polarity < -(1/10) then "Negative"
    else "Neutral"
  (sentiment_label, polarity, subjectivity)

/-! ### `Analyzer.analyze_source_credibility`

`subjectivity` comes from `analyze_sentiment` (TextBlob), `num_sentences` is
`len(self.blob.sentences)` (TextBlob) and `link_count` is the article's
`external_links_count`; all three enter as arguments.  The source formats the
final score as a string `f"{score:.2f}/100"`; the numeric score is returned
here, formatting being presentation. -/

/-- Embeds `Analyzer.analyze_source_credibility`: assessment tier and clamped
credibility score. -/
def analyze_source_credibility (subjectivity : ℚ) (num_sentences : Nat)
    (link_count : Nat) : String × ℚ :=
  let credibility_score := (1 - subjectivity) * 100
  let credibility_score :=
    if num_sentences < 8 then credibility_score - 25 else credibility_score
  let link_bonus : ℚ := min ((link_count : ℚ) * 3) 30
  let credibility_score := credibility_score + link_bonus
  let credibility_score := max 0 (min 100 credibility_score)
  let assessment :=
    if credibility_score > 80 then "Appears highly credible"
    else if credibility_score > 60 then "Appears credible"
    else if credibility_score > 40 then "Moderate credibility"
    else "Low credibility (review with caution)"
  (assessment, credibility_score)

/-! ### `Analyzer.categorize_topic` -/

/-- The fixed topic taxonomy, in its declared (insertion) order. -/
def topics : List (String × List String) := [
  ("Technology", ["ai", "software", "hardware", "apple", "google", "data", "cloud",
    "startup", "algorithm", "cybersecurity", "innovation", "robotics", "crypto",
    "samsung", "processor", "graphics", "performance"]),
  ("Politics", ["government", "election", "senate", "law", "policy", "president",
    "congress", "political", "legislation", "democracy", "ballot", "vote"]),
  ("Sports", ["game", "team", "player", "season", "score", "nba", "football",
    "olympics", "champion", "athlete", "stadium", "playoffs", "goal", "soccer"]),
  ("Business", ["company", "market", "stock", "economy", "ceo", "finance",
    "investment", "revenue", "quarterly", "wall street", "ipo", "earnings"]),
  ("Health", ["health", "sleep", "medical", "doctor", "hospital", "fda", "virus",
    "pandemic", "vaccine", "research", "disease", "wellness", "nutrition"]),
  ("Entertainment", ["movie", "music", "singer", "box office", "celebrity", "film",
    "hollywood", "nollywood", "bollywood", "award", "series", "netflix", "actor",
    "actress", "director", "album", "concert"]),
  ("Education", ["course", "student", "test", "exam", "school", "university",
    "scholarship", "hostel", "bootcamp", "camp"])]

/-- Auxiliary scan for Python's `str.count`: walks the text one character at a
time; `skip` characters remain to be consumed from the previous match (Python
counts non-overlapping occurrences, resuming the scan after each match). -/
def strCountAux (needle : List Char) : Nat → List Char → Nat
  | _, [] => 0
  | 0, c :: cs =>
      if needle.isPrefixOf (c :: cs) then 1 + strCountAux needle (needle.length - 1) cs
      else strCountAux needle 0 cs
  | k + 1, _ :: cs => strCountAux needle k cs

/-- Python's `hay.count(needle)`: the number of non-overlapping occurrences of
`needle` in `hay` (for an empty needle Python returns `len(hay) + 1`). -/
def strCount (needle hay : List Char) : Nat :=
  if needle.isEmpty then hay.length + 1 else strCountAux needle 0 hay

/-- The `scores` dictionary of `categorize_topic`, in taxonomy order: each
category paired with the sum over its keywords of
`lower_text.count(keyword)`. -/
def topicScores (text : String) : List (String × Nat) :=
  topics.map fun p => (p.1, (p.2.map fun k => strCount k.data (pyLower text).data).sum)

/-- Python's `max(iterable, key=snd)`: the fold keeps the current best unless a
later element is strictly greater, so the first maximal element wins ties. -/
def pyMax : List (String × Nat) → Option (String × Nat)
  | [] => none
  | x :: xs => some (xs.foldl (fun best y => if best.2 < y.2 then y else best) x)

/-- Embeds `Analyzer.categorize_topic`: `"Uncategorized"` when every category scores
zero, otherwise `max(scores, key=scores.get)`. -/
def categorize_topic (text : String) : String :=
  if (topicScores text).all (fun p => p.2 == 0) then "Uncategorized"
  else match pyMax (topicScores text) with
    | some p => p.1
    | none => "Uncategorized"

/-! ### `Article.fetch_content`

The HTTP layer (requests), HTML parsing (BeautifulSoup) and URL resolution
(urllib) are external; a fetched-and-parsed page enters as a `Page` whose
anchors are already resolved to absolute URLs, and each fetch attempt's
outcome enters as a `FetchOutcome`. -/

/-- An absolute URL as seen through `urlparse`: scheme, network location
(domain) and the remainder (path, query, fragment); two URLs are equal exactly
when all components are. -/
structure AbsUrl where
  scheme : String
  netloc : String
  rest : String
deriving DecidableEq

/-- The anchor filter of `fetch_content`: keep a resolved URL only if its
scheme is http/https and its domain differs from the article's domain. -/
def keepsLink (base_url_netloc : String) (u : AbsUrl) : Bool :=
  (u.scheme == "http" || u.scheme == "https") && u.netloc != base_url_netloc

/-- Embeds `external_links_count`: the anchors (in document order, already resolved
against the article URL) are filtered and inserted into a `set`; the count is
the number of distinct kept URLs, modelled by `dedup`. -/
def count_external_links (base_url_netloc : String) (anchors : List AbsUrl) : Nat :=
  ((anchors.filter (keepsLink base_url_netloc)).dedup).length

/-- A successfully fetched and parsed page: the document title (if the parser
found a `<title>` with a string), the text of each paragraph of the selected
container in document order, and the resolved anchor URLs found inside those
paragraphs. -/
structure Page where
  title : Option String
  paragraphs : List String
  anchors : List AbsUrl

/-- The article record built by `fetch_content`. -/
structure Article where
  url : String
  title : String
  text : String
  external_links_count : Nat
deriving DecidableEq

/-- The success branch of `fetch_content`: title (trimmed, or the
`"No title found"` sentinel), paragraph texts joined by newlines, external
link count, and the placeholder substitution when the joined text is empty. -/
def extractArticle (url : String) (base_url_netloc : String) (p : Page) : Article :=
  let title := match p.title with
    | some t => t.trim
    | none => "No title found"
  let text := String.intercalate "\n" p.paragraphs
  let count := count_external_links base_url_netloc p.anchors
  let text := if text = "" then "Content could not be extracted." else text
  { url := url, title := title, text := text, external_links_count := count }

/-- Outcome of one `requests.get` attempt: a parsed page, or a
`RequestException` (transport error or non-2xx status via
`raise_for_status`). -/
inductive FetchOutcome where
  | ok (page : Page)
  | exn

/-- Embeds `Article.fetch_content` with its retry loop: each attempt is paired with
the answer the user would give to `"Would you like to try again? (y/n)"` were
that attempt to fail (the source lowercases the answer and retries exactly on
`"y"`).  An exhausted attempt list is read as declining.  Declining leaves
`text` empty and sets the `"Failed to Fetch"` sentinel title (the freshly
constructed object has `external_links_count = 0`). -/
def fetch_content (url : String) (base_url_netloc : String) :
    List (FetchOutcome × String) → Article
  | [] => { url := url, title := "Failed to Fetch", text := "", external_links_count := 0 }
  | (FetchOutcome.ok p, _) :: _ => extractArticle url base_url_netloc p
  | (FetchOutcome.exn, ans) :: rest =>
      if pyLower ans = "y" then fetch_content url base_url_netloc rest
      else { url := url, title := "Failed to Fetch", text := "", external_links_count := 0 }

/-! ### `Analyzer.__init__`

`CLI.run` is not modelled: source line 301 reads
`"credibility": analyzer.analyze_source_credibility()D` — the stray `D` is a
Python syntax error, so the module cannot be parsed and `CLI.run`, including
its guard `if not article.text or article.title == "Failed to Fetch": return`,
has no runtime behaviour. -/

/-- The analyzer object: it stores the article and a copy of its text (the
TextBlob member is an external primitive and is not part of the state). -/
structure Analyzer where
  article : Article
  text : String

/-- Embeds `Analyzer.__init__`: raises `ValueError` when the article's text is empty
(`not article.text`); the `isinstance` half of the guard holds by typing. -/
def Analyzer.init (article : Article) : Except String Analyzer :=
  if article.text = "" then
    Except.error "Analyzer requires a valid Article object with fetched text."
  else Except.ok { article := article, text := article.text }

/-! ### Helper lemmas -/

lemma biased_words_nodup : biased_words.Nodup := by decide

lemma found_words_nodup (text : String) : (found_words text).Nodup :=
  biased_words_nodup.filter _

lemma found_words_dedup (text : String) : (found_words text).dedup = found_words text :=
  List.dedup_eq_self.mpr (found_words_nodup text)

lemma detect_bias_score_def (text : String) :
    (detect_bias text).2.1 = (found_words text).length := rfl

lemma detect_bias_words_def (text : String) :
    (detect_bias text).2.2 = (found_words text).dedup := rfl

lemma detect_bias_tier_def (text : String) :
    (detect_bias text).1 =
      (if (found_words text).length > 15 then "High potential for bias"
       else if (found_words text).length > 7 then "Moderate potential for bias"
       else if (found_words text).length > 0 then "Low potential for bias"
       else "Appears to be objective") := rfl

lemma length_filter_mono {α : Type} (l : List α) (p q : α → Bool)
    (h : ∀ a ∈ l, p a = true → q a = true) :
    (l.filter p).length ≤ (l.filter q).length := by
  induction l with
  | nil => simp
  | cons x xs ih =>
    have hx := h x (List.mem_cons_self x xs)
    have ih' := ih fun a ha hp => h a (List.mem_cons_of_mem _ ha) hp
    cases hp : p x with
    | true =>
      rw [List.filter_cons_of_pos hp, List.filter_cons_of_pos (hx hp)]
      simpa using ih'
    | false =>
      rw [List.filter_cons_of_neg (by simp [hp])]
      cases hq : q x with
      | true =>
        rw [List.filter_cons_of_pos hq]
        exact le_trans ih' (Nat.le_succ _)
      | false =>
        rw [List.filter_cons_of_neg (by simp [hq])]
        exact ih'

/-- Python's `max` (modelled by `pyMax`) returns the first maximal element:
the input splits as `l1 ++ m :: l2` where `m` is the result, every element's
score is at most `m`'s, and every element strictly before `m` scores strictly
below `m`. -/
lemma pyMax_first_max : ∀ (xs : List (String × Nat)) (x : String × Nat),
    ∃ l1 m l2, pyMax (x :: xs) = some m ∧ x :: xs = l1 ++ m :: l2 ∧
      (∀ r ∈ x :: xs, r.2 ≤ m.2) ∧ ∀ r ∈ l1, r.2 < m.2 := by
  intro xs
  induction xs with
  | nil =>
    intro x
    exact ⟨[], x, [], rfl, rfl, by simp, by simp⟩
  | cons y ys ih =>
    intro x
    have hfold : pyMax (x :: y :: ys) = pyMax ((if x.2 < y.2 then y else x) :: ys) := rfl
    by_cases hxy : x.2 < y.2
    · obtain ⟨l1, m, l2, hpm, hdec, hmax, hlt⟩ := ih y
      have hym : y.2 ≤ m.2 := hmax y (List.mem_cons_self y ys)
      refine ⟨x :: l1, m, l2, ?_, ?_, ?_, ?_⟩
      · rw [hfold, if_pos hxy]; exact hpm
      · rw [List.cons_append, ← hdec]
      · intro r hr
        rcases List.mem_cons.mp hr with h | h
        · subst h; exact le_of_lt (lt_of_lt_of_le hxy hym)
        · exact hmax r h
      · intro r hr
        rcases List.mem_cons.mp hr with h | h
        · subst h; exact lt_of_lt_of_le hxy hym
        · exact hlt r h
    · obtain ⟨l1, m, l2, hpm, hdec, hmax, hlt⟩ := ih x
      have hyx : y.2 ≤ x.2 := le_of_not_lt hxy
      have hpm' : pyMax (x :: y :: ys) = some m := by rw [hfold, if_neg hxy]; exact hpm
      cases l1 with
      | nil =>
        simp only [List.nil_append, List.cons.injEq] at hdec
        obtain ⟨hxm, hyl⟩ := hdec
        have hxm2 : x.2 = m.2 := congrArg Prod.snd hxm
        refine ⟨[], m, y :: l2, hpm', ?_, ?_, by simp⟩
        · rw [List.nil_append, ← hxm, ← hyl]
        · intro r hr
          rcases List.mem_cons.mp hr with h | h
          · subst h; exact le_of_eq hxm2
          · rcases List.mem_cons.mp h with h' | h'
            · subst h'; exact hxm2 ▸ hyx
            · exact hmax r (List.mem_cons_of_mem _ h')
      | cons a l1' =>
        simp only [List.cons_append, List.cons.injEq] at hdec
        obtain ⟨hax, hys⟩ := hdec
        have hxlt : x.2 < m.2 := by
          rw [hax]
          exact hlt a (List.mem_cons_self a l1')
        refine ⟨x :: y :: l1', m, l2, hpm', ?_, ?_, ?_⟩
        · simp [hys]
        · intro r hr
          rcases List.mem_cons.mp hr with h | h
          · subst h; exact le_of_lt hxlt
          · rcases List.mem_cons.mp h with h' | h'
            · subst h'; exact le_of_lt (lt_of_le_of_lt hyx hxlt)
            · exact hmax r (List.mem_cons_of_mem _ h')
        · intro r hr
          rcases List.mem_cons.mp hr with h | h
          · subst h; exact hxlt
          · rcases List.mem_cons.mp h with h' | h'
            · subst h'; exact lt_of_le_of_lt hyx hxlt
            · exact hlt r (List.mem_cons_of_mem _ h')

/-! ### Claim theorems -/

/-- C4: for every polarity `p` returned by the sentiment primitive,
`analyze_sentiment` labels `"Positive"` iff `p > 0.1`, `"Negative"` iff
`p < -0.1` and `"Neutral"` otherwise; in particular `p = 0.1` and `p = -0.1`
map to `"Neutral"` and `p = 0.1000001` maps to `"Positive"`. -/
theorem sentiment_label_boundaries :
    (∀ p s : ℚ,
      ((analyze_sentiment p s).1 = "Positive" ↔ p > 1/10)
      ∧ ((analyze_sentiment p s).1 = "Negative" ↔ p < -(1/10))
      ∧ ((analyze_sentiment p s).1 = "Neutral" ↔ -(1/10) ≤ p ∧ p ≤ 1/10)
      ∧ (analyze_sentiment p s).2 = (p, s))
    ∧ (analyze_sentiment (1/10) 0).1 = "Neutral"
    ∧ (analyze_sentiment (-(1/10)) 0).1 = "Neutral"
    ∧ (analyze_sentiment (1000001/10000000) 0).1 = "Positive" := by
  refine ⟨fun p s => ?_, ?_, ?_, ?_⟩
  · unfold analyze_sentiment
    dsimp only
    split_ifs with h1 h2
    · exact ⟨iff_of_true rfl h1,
        iff_of_false (by decide) (by intro h; linarith),
        iff_of_false (by decide) (by intro h; linarith [h.2]), rfl⟩
    · exact ⟨iff_of_false (by decide) h1,
        iff_of_true rfl h2,
        iff_of_false (by decide) (by intro h; linarith [h.1]), rfl⟩
    · exact ⟨iff_of_false (by decide) h1,
        iff_of_false (by decide) h2,
        iff_of_true rfl ⟨le_of_not_lt h2, le_of_not_lt h1⟩, rfl⟩
  · unfold analyze_sentiment; norm_num
  · unfold analyze_sentiment; norm_num
  · unfold analyze_sentiment; norm_num

/-- Witness for C4 at `p = 1/5`: the label is `"Positive"` iff `1/5 > 1/10`,
and `1/5 > 1/10` holds. -/
theorem sentiment_label_boundaries_witness :
    ((analyze_sentiment (1/5) 0).1 = "Positive" ↔ (1:ℚ)/5 > 1/10) ∧ (1:ℚ)/5 > 1/10 :=
  ⟨(sentiment_label_boundaries.1 (1/5) 0).1, by norm_num⟩

/-- C6: an analyzer cannot be built on a document with empty body:
`Analyzer.__init__` raises `ValueError` on empty text, and a successfully
constructed analyzer implies the text was non-empty. -/
theorem analyzer_requires_nonempty_text : ∀ a : Article,
    (a.text = "" →
      Analyzer.init a =
        Except.error "Analyzer requires a valid Article object with fetched text.")
    ∧ (∀ an : Analyzer, Analyzer.init a = Except.ok an → a.text ≠ "") := by
  intro a
  constructor
  · intro h
    unfold Analyzer.init
    rw [if_pos h]
  · intro an hok hempty
    unfold Analyzer.init at hok
    rw [if_pos hempty] at hok
    exact Except.noConfusion hok

/-- Witness for C6: on a concrete article with empty body, construction
returns the `ValueError`. -/
theorem analyzer_requires_nonempty_text_witness :
    Analyzer.init ⟨"http://e.com", "t", "", 0⟩ =
      Except.error "Analyzer requires a valid Article object with fetched text." :=
  (analyzer_requires_nonempty_text ⟨"http://e.com", "t", "", 0⟩).1 rfl

/-- C1: for subjectivity `s ∈ [0,1]`, sentence count `n` and link count `L`,
the credibility score is
`clamp((1-s)*100 - (25 if n < 8 else 0) + min(3L, 30), 0, 100)` and the tier
is read off the clamped score at thresholds 80/60/40; the three quoted
instances evaluate to 0, 100 (not 130) and `("Appears credible", 72)`. -/
theorem credibility_formula_and_tiers :
    (∀ (s : ℚ) (n L : ℕ), 0 ≤ s → s ≤ 1 →
      (analyze_source_credibility s n L).2 =
        max 0 (min 100 ((1 - s) * 100 - (if n < 8 then (25:ℚ) else 0) + min ((L:ℚ) * 3) 30))
      ∧ (analyze_source_credibility s n L).1 =
          (if (analyze_source_credibility s n L).2 > 80 then "Appears highly credible"
           else if (analyze_source_credibility s n L).2 > 60 then "Appears credible"
           else if (analyze_source_credibility s n L).2 > 40 then "Moderate credibility"
           else "Low credibility (review with caution)"))
    ∧ (analyze_source_credibility 1 1 0).2 = 0
    ∧ (analyze_source_credibility 0 20 100).2 = 100
    ∧ analyze_source_credibility (2/5) 10 4 = ("Appears credible", 72) := by
  refine ⟨fun s n L h0 h1 => ⟨?_, rfl⟩, ?_, ?_, ?_⟩
  · unfold analyze_source_credibility
    dsimp only
    split_ifs with hn <;> ring_nf
  · unfold analyze_source_credibility; norm_num [min_def, max_def]
  · unfold analyze_source_credibility; norm_num [min_def, max_def]
  · unfold analyze_source_credibility; norm_num [min_def, max_def]

/-- Witness for C1 at `s = 2/5`, `n = 10`, `L = 4` (hypotheses `0 ≤ 2/5` and
`2/5 ≤ 1` hold). -/
theorem credibility_formula_and_tiers_witness :
    (analyze_source_credibility (2/5) 10 4).2 =
      max 0 (min 100 ((1 - 2/5) * 100 - (if (10:ℕ) < 8 then (25:ℚ) else 0)
        + min (((4:ℕ):ℚ) * 3) 30)) :=
  (credibility_formula_and_tiers.1 (2/5) 10 4 (by norm_num) (by norm_num)).1

/-- C2: the bias score is the number of distinct lexicon entries with at least
one whole-word, case-insensitive match (occurrences inside larger words, such
as "good" in "goodness", do not count), the tiers partition the score exactly
as claimed, and a body containing "shocking", "disaster" and "miracle" once
each and no other entry scores 3 with tier `"Low potential for bias"`. -/
theorem bias_score_distinct_and_tiers : ∀ text : String,
    (detect_bias text).2.1 = ((biased_words.filter fun w => wwSearch w text).toFinset).card
    ∧ ((detect_bias text).1 = "High potential for bias" ↔ 15 < (detect_bias text).2.1)
    ∧ ((detect_bias text).1 = "Moderate potential for bias" ↔
        7 < (detect_bias text).2.1 ∧ (detect_bias text).2.1 ≤ 15)
    ∧ ((detect_bias text).1 = "Low potential for bias" ↔
        0 < (detect_bias text).2.1 ∧ (detect_bias text).2.1 ≤ 7)
    ∧ ((detect_bias text).1 = "Appears to be objective" ↔ (detect_bias text).2.1 = 0)
    ∧ wwSearch "good" "goodness" = false
    ∧ detect_bias "It was a shocking disaster and a miracle." =
        ("Low potential for bias", 3, ["disaster", "miracle", "shocking"]) := by
  intro text
  refine ⟨?_, ?_, ?_, ?_, ?_, by decide, by decide⟩
  · rw [detect_bias_score_def, List.card_toFinset,
      show (biased_words.filter fun w => wwSearch w text) = found_words text from rfl,
      found_words_dedup]
  · rw [detect_bias_tier_def, detect_bias_score_def]
    split_ifs with h1 h2 h3
    · exact iff_of_true rfl h1
    · exact iff_of_false (by decide) h1
    · exact iff_of_false (by decide) h1
    · exact iff_of_false (by decide) h1
  · rw [detect_bias_tier_def, detect_bias_score_def]
    split_ifs with h1 h2 h3
    · exact iff_of_false (by decide) (by omega)
    · exact iff_of_true rfl (by omega)
    · exact iff_of_false (by decide) (by omega)
    · exact iff_of_false (by decide) (by omega)
  · rw [detect_bias_tier_def, detect_bias_score_def]
    split_ifs with h1 h2 h3
    · exact iff_of_false (by decide) (by omega)
    · exact iff_of_false (by decide) (by omega)
    · exact iff_of_true rfl (by omega)
    · exact iff_of_false (by decide) (by omega)
  · rw [detect_bias_tier_def, detect_bias_score_def]
    split_ifs with h1 h2 h3
    · exact iff_of_false (by decide) (by omega)
    · exact iff_of_false (by decide) (by omega)
    · exact iff_of_false (by decide) (by omega)
    · exact iff_of_true rfl (by omega)

/-- Witness for C2 at the text `"It was bad."`: the score equals the number of
distinct matching lexicon entries. -/
theorem bias_score_distinct_and_tiers_witness :
    (detect_bias "It was bad.").2.1 =
      ((biased_words.filter fun w => wwSearch w "It was bad.").toFinset).card :=
  (bias_score_distinct_and_tiers "It was bad.").1

/-- C9: the bias score is monotone in the set of matched lexicon entries: if
every lexicon entry that whole-word-matches in `A` also matches in `B`, the
score of `A` is at most the score of `B`. -/
theorem bias_score_monotone : ∀ A B : String,
    (∀ w ∈ biased_words, wwSearch w A = true → wwSearch w B = true) →
    (detect_bias A).2.1 ≤ (detect_bias B).2.1 := by
  intro A B h
  rw [detect_bias_score_def, detect_bias_score_def]
  exact length_filter_mono biased_words _ _ h

/-- Witness for C9: `"It was bad and awful."` extends the matches of
`"It was bad."`, and the score does not decrease. -/
theorem bias_score_monotone_witness :
    (detect_bias "It was bad.").2.1 ≤ (detect_bias "It was bad and awful.").2.1 :=
  bias_score_monotone "It was bad." "It was bad and awful." (by decide)

/-- C10: coherence of the `detect_bias` result: the score is the length of the
returned word list, every returned word is a lexicon entry that matches the
text, the list has no duplicates, and the score is at most 121 — the lexicon's
actual size. -/
theorem bias_result_coherence : ∀ text : String,
    (detect_bias text).2.1 = (detect_bias text).2.2.length
    ∧ (∀ w ∈ (detect_bias text).2.2, w ∈ biased_words ∧ wwSearch w text = true)
    ∧ (detect_bias text).2.2.Nodup
    ∧ (detect_bias text).2.1 ≤ 121
    ∧ biased_words.length = 121 := by
  intro text
  have hw : (detect_bias text).2.2 = found_words text := by
    rw [detect_bias_words_def, found_words_dedup]
  refine ⟨?_, ?_, ?_, ?_, by decide⟩
  · rw [detect_bias_score_def, hw]
  · intro w hmem
    rw [hw] at hmem
    have h := List.mem_filter.mp hmem
    exact ⟨h.1, h.2⟩
  · rw [detect_bias_words_def]
    exact List.nodup_dedup _
  · rw [detect_bias_score_def]
    calc (found_words text).length ≤ biased_words.length := List.length_filter_le _ _
    _ = 121 := by decide

/-- Witness for C10 at `"It was bad."`: score equals the length of the
returned word list there. -/
theorem bias_result_coherence_witness :
    (detect_bias "It was bad.").2.1 = (detect_bias "It was bad.").2.2.length :=
  (bias_result_coherence "It was bad.").1

/-- C3: `categorize_topic` scores each category by summing the non-overlapping
case-insensitive substring counts of its keywords (see `topicScores`), returns
`"Uncategorized"` exactly when every category scores zero, and otherwise
returns the first category (in the taxonomy's declared order) attaining the
maximal score, so ties break deterministically to declared order; the quoted
body about a new election law classifies as `"Politics"`.  (Determinism itself
is immediate: the embedding is a pure function of the body text.) -/
theorem topic_selection_spec : ∀ text : String,
    ((∀ p ∈ topicScores text, p.2 = 0) → categorize_topic text = "Uncategorized")
    ∧ ((∃ p ∈ topicScores text, p.2 ≠ 0) →
        ∃ l1 q l2, topicScores text = l1 ++ q :: l2
          ∧ categorize_topic text = q.1
          ∧ (∀ r ∈ topicScores text, r.2 ≤ q.2)
          ∧ (∀ r ∈ l1, r.2 < q.2))
    ∧ categorize_topic "The government passed a new election law." = "Politics" := by
  intro text
  refine ⟨?_, ?_, by decide⟩
  · intro hz
    have hb : (topicScores text).all (fun p => p.2 == 0) = true :=
      List.all_eq_true.mpr fun p hp => beq_iff_eq.mpr (hz p hp)
    simp [categorize_topic, hb]
  · intro hex
    have hne : topicScores text ≠ [] := by
      obtain ⟨p, hp, _⟩ := hex
      exact List.ne_nil_of_mem hp
    obtain ⟨x, xs, hxs⟩ := List.exists_cons_of_ne_nil hne
    obtain ⟨l1, m, l2, hpm, hdec, hmax, hlt⟩ := pyMax_first_max xs x
    have hall : (topicScores text).all (fun p => p.2 == 0) = false := by
      cases hb : (topicScores text).all (fun p => p.2 == 0) with
      | false => rfl
      | true =>
        obtain ⟨p, hp, hp0⟩ := hex
        exact absurd (beq_iff_eq.mp (List.all_eq_true.mp hb p hp)) hp0
    have hcat : categorize_topic text =
        (match pyMax (topicScores text) with
          | some p => p.1
          | none => "Uncategorized") := by
      simp [categorize_topic, hall]
    refine ⟨l1, m, l2, by rw [hxs]; exact hdec, ?_, by rw [hxs]; exact hmax, hlt⟩
    rw [hcat, hxs, hpm]

/-- Witness for C3 on a body matching no keyword: the all-zero hypothesis is
discharged by evaluation and the topic is `"Uncategorized"`. -/
theorem topic_selection_spec_witness :
    categorize_topic "zzz" = "Uncategorized" :=
  (topic_selection_spec "zzz").1 (by decide)

/-- C5: `external_links_count` counts the distinct resolved anchor URLs whose
scheme is http/https and whose domain differs from the article's: duplicates
count once, a same-domain link is excluded regardless of path, and two
distinct paths on the same foreign domain count separately. -/
theorem external_link_distinct_count : ∀ (base : String) (anchors : List AbsUrl),
    count_external_links base anchors =
      ((anchors.filter (keepsLink base)).toFinset).card
    ∧ (∀ u ∈ anchors,
        count_external_links base (anchors ++ [u]) = count_external_links base anchors)
    ∧ (∀ u : AbsUrl, u.netloc = base →
        count_external_links base (anchors ++ [u]) = count_external_links base anchors)
    ∧ count_external_links "a.com"
        [⟨"https", "b.com", "/x"⟩, ⟨"https", "b.com", "/y"⟩] = 2 := by
  intro base anchors
  have hkey : ∀ l : List AbsUrl,
      count_external_links base l = ((l.filter (keepsLink base)).toFinset).card := by
    intro l
    rw [count_external_links, List.card_toFinset]
  refine ⟨hkey anchors, ?_, ?_, by decide⟩
  · intro u hu
    rw [hkey, hkey, List.filter_append]
    cases hP : keepsLink base u with
    | true =>
      have h1 : [u].filter (keepsLink base) = [u] := by simp [hP]
      rw [h1, List.toFinset_append]
      have hu' : u ∈ (anchors.filter (keepsLink base)).toFinset :=
        List.mem_toFinset.mpr (List.mem_filter.mpr ⟨hu, hP⟩)
      rw [show ([u] : List AbsUrl).toFinset = {u} from rfl]
      congr 1
      exact Finset.union_eq_left.mpr (Finset.singleton_subset_iff.mpr hu')
    | false =>
      have h1 : [u].filter (keepsLink base) = [] := by simp [hP]
      rw [h1, List.append_nil]
  · intro u hnet
    have hP : keepsLink base u = false := by
      simp [keepsLink, hnet]
    rw [hkey, hkey, List.filter_append]
    have h1 : [u].filter (keepsLink base) = [] := by simp [hP]
    rw [h1, List.append_nil]

/-- Witness for C5: appending an anchor already present leaves the count
unchanged. -/
theorem external_link_distinct_count_witness :
    count_external_links "a.com" ([⟨"https", "b.com", "/x"⟩] ++ [⟨"https", "b.com", "/x"⟩]) =
      count_external_links "a.com" [⟨"https", "b.com", "/x"⟩] :=
  (external_link_distinct_count "a.com" [⟨"https", "b.com", "/x"⟩]).2.1
    ⟨"https", "b.com", "/x"⟩ (by decide)

/-- C7 (code bug): the extraction layer behaves exactly as claimed — when the
selected container yields no paragraph text, extraction substitutes the
placeholder body `"Content could not be extracted."` instead of leaving it
empty, this is the only case in which the extracted body is replaced, the
resulting body is never empty, and the placeholder body passes the analyzer
precondition (`Analyzer.__init__` accepts it).  The claim's further clause
that "the pipeline continues (the analyzers then run on this placeholder
text)" is falsified by the source itself: the syntax error at line 301 (see
the note above `Analyzer.init`) prevents the module from loading, so no
analyzer ever runs. -/
theorem placeholder_substitution : ∀ (url base : String) (p : Page),
    (String.intercalate "\n" p.paragraphs = "" →
      (extractArticle url base p).text = "Content could not be extracted.")
    ∧ (String.intercalate "\n" p.paragraphs ≠ "" →
      (extractArticle url base p).text = String.intercalate "\n" p.paragraphs)
    ∧ (extractArticle url base p).text ≠ ""
    ∧ (∃ an : Analyzer, Analyzer.init (extractArticle url base p) = Except.ok an) := by
  intro url base p
  have htext : (extractArticle url base p).text =
      (if String.intercalate "\n" p.paragraphs = "" then "Content could not be extracted."
       else String.intercalate "\n" p.paragraphs) := rfl
  have hne : (extractArticle url base p).text ≠ "" := by
    rw [htext]
    split_ifs with h
    · exact (by decide)
    · exact h
  refine ⟨?_, ?_, hne, ?_⟩
  · intro h; rw [htext, if_pos h]
  · intro h; rw [htext, if_neg h]
  · refine ⟨⟨extractArticle url base p, (extractArticle url base p).text⟩, ?_⟩
    unfold Analyzer.init
    rw [if_neg hne]

/-- Witness for C7: a page with a title and no paragraphs gets the
placeholder body. -/
theorem placeholder_substitution_witness :
    (extractArticle "http://e.com" "e.com" ⟨some "T", [], []⟩).text =
      "Content could not be extracted." :=
  (placeholder_substitution "http://e.com" "e.com" ⟨some "T", [], []⟩).1 rfl

/-- Declining the retry after any run of retried failures produces the
sentinel article: empty text and title `"Failed to Fetch"`. -/
lemma fetch_content_decline (url base ans : String)
    (rest : List (FetchOutcome × String)) (hans : pyLower ans ≠ "y") :
    ∀ pre, (∀ x ∈ pre, x.1 = FetchOutcome.exn ∧ pyLower x.2 = "y") →
      fetch_content url base (pre ++ (FetchOutcome.exn, ans) :: rest) =
        { url := url, title := "Failed to Fetch", text := "", external_links_count := 0 } := by
  intro pre
  induction pre with
  | nil =>
    intro _
    show (if pyLower ans = "y" then fetch_content url base rest
          else { url := url, title := "Failed to Fetch", text := "",
                 external_links_count := 0 }) = _
    rw [if_neg hans]
  | cons x pre' ih =>
    intro hpre
    obtain ⟨o, a⟩ := x
    obtain ⟨hx1, hx2⟩ := hpre (o, a) (List.mem_cons_self _ pre')
    have ih' := ih fun z hz => hpre z (List.mem_cons_of_mem _ hz)
    subst hx1
    show (if pyLower a = "y" then fetch_content url base (pre' ++ (FetchOutcome.exn, ans) :: rest)
          else { url := url, title := "Failed to Fetch", text := "",
                 external_links_count := 0 }) = _
    rw [if_pos hx2]
    exact ih'

/-- C8 (code bug): the fetch layer behaves exactly as claimed — on fetch
failure the extractor consults the caller's yes/no answer and, whenever the
retry is declined (after any number of accepted retries), the article gets
the sentinel title `"Failed to Fetch"` and an empty body, a state on which the
analyzer cannot be constructed.  The claim's conclusion that this state
"causes the pipeline to terminate before any analysis runs" is about the
guard in `CLI.run`, and `CLI.run` is dead text: the syntax error at line 301
(see the note above `Analyzer.init`) keeps the module from ever loading, so
the guard never executes. -/
theorem fetch_decline_sentinel : ∀ (url base ans : String)
    (pre rest : List (FetchOutcome × String)),
    (∀ x ∈ pre, x.1 = FetchOutcome.exn ∧ pyLower x.2 = "y") →
    pyLower ans ≠ "y" →
    (fetch_content url base (pre ++ (FetchOutcome.exn, ans) :: rest)).title = "Failed to Fetch"
    ∧ (fetch_content url base (pre ++ (FetchOutcome.exn, ans) :: rest)).text = ""
    ∧ Analyzer.init (fetch_content url base (pre ++ (FetchOutcome.exn, ans) :: rest)) =
        Except.error "Analyzer requires a valid Article object with fetched text." := by
  intro url base ans pre rest hpre hans
  rw [fetch_content_decline url base ans rest hans pre hpre]
  refine ⟨rfl, rfl, ?_⟩
  unfold Analyzer.init
  rw [if_pos rfl]

/-- Witness for C8: one failed attempt retried with answer `"y"`, a second
failure declined with `"n"`; the resulting title is the sentinel. -/
theorem fetch_decline_sentinel_witness :
    (fetch_content "http://e.com" "e.com"
      [(FetchOutcome.exn, "y"), (FetchOutcome.exn, "n")]).title = "Failed to Fetch" :=
  (fetch_decline_sentinel "http://e.com" "e.com" "n" [(FetchOutcome.exn, "y")] []
    (fun x hx => by
      rw [List.mem_singleton] at hx
      subst hx
      exact ⟨rfl, rfl⟩)
    (by decide)).1
